import Mathlib

/-!
Verification of `src/python/model_select_util.py` (class `ModelSelectUtil`).

The class is a notebook UI helper: two cascading dropdown widgets let the user
pick an LLM provider ("platform") and a model, gated by presence of an API key
environment variable.  We embed it shallowly:

* the process environment is an association list `Env`, read by `getenv`
  (mirroring `os.getenv`: `none` when the variable is unset);
* Python truthiness of an optional string (`None` and `""` are falsy) is
  `optTruthy`;
* the mutable instance state (`platform_dropdown`, `model_dropdown`,
  `selected_platform`, `selected_model`, plus the text currently shown in the
  two `Output` areas) is the record `MState`;
* each method becomes a pure function from state to state.
  `select_platform_widget` returns `Option MState`: `none` models an uncaught
  Python exception (the only candidate is the `configs[0]` subscript on an
  empty per-provider model list, an `IndexError`); we prove it never occurs
  for the hard-coded `model_configs` table;
* the widget observers (`on_platform_change`, `on_model_change`) become the
  `Event.platformChange` / `Event.modelChange` cases of a `step` function.
  A change event can only fire when the corresponding dropdown exists and the
  new value is one of its options and differs from the current value, exactly
  the circumstances under which ipywidgets delivers a
  `type = change, name = value` notification to the observer.
-/

namespace ModelSelectUtil

/-- The process environment: a list of (variable name, value) bindings. -/
abbrev Env := List (String × String)

/-- `os.getenv`: the value of the first binding of the variable, if any. -/
def getenv : Env → String → Option String
  | [], _ => none
  | b :: rest, v => if b.1 = v then some b.2 else getenv rest v

/-- Python truthiness of an optional string: `None` and `""` are falsy. -/
def optTruthy : Option String → Bool
  | none => false
  | some s => s ≠ ""

/-- `dict.get`: first value bound to the key, `none` when absent. -/
def lookupVal {α : Type} : List (String × α) → String → Option α
  | [], _ => none
  | b :: rest, k => if b.1 = k then some b.2 else lookupVal rest k

/-- The hard-coded `model_configs` class attribute: provider name to ordered
list of (model name, provider key) pairs. -/
def model_configs : List (String × List (String × String)) :=
  [ ("OpenAI",
      [ ("gpt-4o", "openai"),
        ("gpt-3.5-turbo", "openai"),
        ("gpt-5-nano", "openai") ]),
    ("Deepseek",
      [ ("deepseek-chat", "deepseek"),
        ("deepseek-coder", "deepseek") ]),
    ("Gemini",
      [ ("gemini-pro", "gemini"),
        ("gemini-flash", "gemini") ]),
    ("Anthropic",
      [ ("claude-3-sonnet-20240229", "anthropic"),
        ("claude-2.1", "anthropic") ]) ]

/-- The hard-coded `api_key_map` class attribute: provider key to the name of
the environment variable holding its API key. -/
def api_key_map : List (String × String) :=
  [ ("openai", "OPENAI_API_KEY"),
    ("deepseek", "DEEPSEEK_API_KEY"),
    ("gemini", "GEMINI_API_KEY"),
    ("anthropic", "ANTHROPIC_API_KEY") ]

/-- A type alias for configuration tables shaped like `model_configs`. -/
abbrev MC := List (String × List (String × String))

/-- A `widgets.Dropdown`: its option list and its current value. -/
structure Dropdown where
  options : List String
  value : String
deriving DecidableEq, Repr

/-- The mutable fields of a `ModelSelectUtil` instance.  `platform_message` /
`model_message` hold the informational text currently printed to
`platform_output` / `model_output` (`none` when the area shows no message). -/
structure MState where
  platform_dropdown : Option Dropdown
  model_dropdown : Option Dropdown
  selected_platform : Option String
  selected_model : Option String
  platform_message : Option String
  model_message : Option String
deriving DecidableEq, Repr

/-- The state established by `__init__`: everything `None`, no output. -/
def initState : MState :=
  { platform_dropdown := none, model_dropdown := none,
    selected_platform := none, selected_model := none,
    platform_message := none, model_message := none }

/-- `_check_api_key_exists`: look the platform key up in `api_key_map`; when
the mapped variable name is truthy, return the truthiness of
`os.getenv(env_var)` (set and non-empty); otherwise `False`. -/
def check_api_key_exists (env : Env) (platform_key : String) : Bool :=
  match lookupVal api_key_map platform_key with
  | some env_var => if env_var ≠ "" then optTruthy (getenv env env_var) else false
  | none => false

/-- The provider-availability loop of `select_platform_widget`: iterate over
the table in order, read `configs[0][1]` (an `IndexError`, modelled as `none`,
when a provider's model list is empty) and keep the providers whose first
model's key passes `_check_api_key_exists`. -/
def availablePlatforms (env : Env) : MC → Option (List String)
  | [] => some []
  | entry :: rest =>
    match entry.2 with
    | [] => none
    | c :: _ =>
      match availablePlatforms env rest with
      | none => none
      | some l =>
        some (if check_api_key_exists env c.2 then entry.1 :: l else l)

/-- The message printed when no provider has a usable key. -/
def noKeysMessage : String :=
  "No API keys found for any configured platform. Please check your .env file."

/-- The message printed when the selected platform has no configured models. -/
def noModelsMessage (platform : String) : String :=
  "No models configured for " ++ platform ++ "."

/-- `select_platform_widget` up to widget display: compute the available
platforms; when none, print a message and return; otherwise create the
platform dropdown with the available list, defaulting to its first entry, and
record that entry as `selected_platform`.  `none` models the `IndexError` on
an empty per-provider model list. -/
def select_platform_widget (env : Env) (mc : MC) (s : MState) : Option MState :=
  match availablePlatforms env mc with
  | none => none
  | some avail =>
    match avail with
    | [] => some { s with platform_message := some noKeysMessage }
    | a :: rest =>
      some { s with
        platform_dropdown := some { options := a :: rest, value := a },
        selected_platform := some a,
        platform_message := none }

/-- The model names listed for a platform:
`[model_name for model_name, _ in self.model_configs.get(platform, [])]`. -/
def modelOptions (mc : MC) (platform : String) : List String :=
  ((lookupVal mc platform).getD []).map (fun c => c.1)

/-- `select_model_widget`: return unchanged when `selected_platform` is falsy;
with no model options, print a message and return; otherwise create the model
dropdown defaulting to the first model name and record it as
`selected_model`. -/
def select_model_widget (mc : MC) (s : MState) : MState :=
  match s.selected_platform with
  | none => s
  | some p =>
    if p = "" then s
    else
      match modelOptions mc p with
      | [] => { s with model_message := some (noModelsMessage p) }
      | m :: rest =>
        { s with
          model_dropdown := some { options := m :: rest, value := m },
          selected_model := some m,
          model_message := none }

/-- The linear search of `get_model_params` over the selected platform's
(model name, platform key) pairs, returning the formatted string for the
first pair whose model name matches. -/
def findParams : List (String × String) → String → Option String
  | [], _ => none
  | c :: rest, m =>
    if c.1 = m then some (c.2 ++ ":" ++ c.1) else findParams rest m

/-- `get_model_params`: `None` when either selection is falsy; otherwise the
`"platform_key:model_name"` string found by scanning the selected platform's
pairs, `None` when no pair matches. -/
def get_model_params (mc : MC) (s : MState) : Option String :=
  match s.selected_platform, s.selected_model with
  | some p, some m =>
    if p = "" ∨ m = "" then none
    else findParams ((lookupVal mc p).getD []) m
  | _, _ => none

/-- The events a `ModelSelectUtil` instance reacts to: the two widget-building
methods being called, and the two observer callbacks firing on a genuine
value change of the corresponding dropdown. -/
inductive Event where
  | selectPlatform (env : Env)
  | selectModel
  | platformChange (newVal : String)
  | modelChange (newVal : String)

/-- One event applied to a state.  A change event is a no-op unless the
dropdown exists, and it fires only for a genuine value change to one of the
dropdown's options; `on_platform_change` then updates `selected_platform` and
cascades into `select_model_widget`, while `on_model_change` only records the
new model. -/
def step (mc : MC) (s : MState) : Event → Option MState
  | .selectPlatform env => select_platform_widget env mc s
  | .selectModel => some (select_model_widget mc s)
  | .platformChange v =>
    match s.platform_dropdown with
    | none => some s
    | some dd =>
      if v ∈ dd.options ∧ v ≠ dd.value then
        some (select_model_widget mc
          { s with
            platform_dropdown := some { dd with value := v },
            selected_platform := some v })
      else some s
  | .modelChange v =>
    match s.model_dropdown with
    | none => some s
    | some dd =>
      if v ∈ dd.options ∧ v ≠ dd.value then
        some { s with
          model_dropdown := some { dd with value := v },
          selected_model := some v }
      else some s

/-- A sequence of events applied from a state, aborting on an exception. -/
def run (mc : MC) (s : MState) : List Event → Option MState
  | [] => some s
  | e :: es =>
    match step mc s e with
    | none => none
    | some s1 => run mc s1 es

/-- `display_widgets`: build the platform widget, then (the returned `Output`
widget object is always truthy) initialize the model selection. -/
def display_widgets (env : Env) (s : MState) : Option MState :=
  match select_platform_widget env model_configs s with
  | none => none
  | some s1 => some (select_model_widget model_configs s1)

/-- The provider names of the table, in order. -/
def providerNames : List String := model_configs.map (fun e => e.1)

/-- The selection invariant of claim C1: whenever both a platform and a model
are selected, the model is one of the models listed for that platform. -/
def selectionConsistent (s : MState) : Prop :=
  ∀ p m, s.selected_platform = some p → s.selected_model = some m →
    m ∈ modelOptions model_configs p

/-- The available-provider list of the fixed `model_configs` table, written
out as one conditional block per provider, in table order. -/
def availListC (env : Env) : List String :=
  (if check_api_key_exists env "openai" then ["OpenAI"] else []) ++
  (if check_api_key_exists env "deepseek" then ["Deepseek"] else []) ++
  (if check_api_key_exists env "gemini" then ["Gemini"] else []) ++
  (if check_api_key_exists env "anthropic" then ["Anthropic"] else [])

/-- Auxiliary invariant: any selected platform is a provider of the table,
the platform dropdown offers only providers of the table, the model dropdown
(when present) offers exactly the models of the currently selected platform,
and the selection itself is consistent. -/
def Inv (s : MState) : Prop :=
  (∀ p, s.selected_platform = some p → p ∈ providerNames) ∧
  (∀ dd, s.platform_dropdown = some dd → ∀ x ∈ dd.options, x ∈ providerNames) ∧
  (∀ dd, s.model_dropdown = some dd →
    ∃ p, s.selected_platform = some p ∧ dd.options = modelOptions model_configs p) ∧
  selectionConsistent s

/-- The state shape before any `select_platform_widget` call: all fields of
`__init__` still `None`. -/
def Pre (s : MState) : Prop :=
  s.platform_dropdown = none ∧ s.model_dropdown = none ∧
  s.selected_platform = none ∧ s.selected_model = none

def isSelectPlatform : Event → Bool
  | .selectPlatform _ => true
  | _ => false

/-- An environment holding API keys for both OpenAI and Deepseek. -/
def envBoth : Env :=
  [("OPENAI_API_KEY", "sk-openai"), ("DEEPSEEK_API_KEY", "sk-deepseek")]

/-- An event sequence with two `select_platform_widget` calls: build the
widgets, switch the platform to Deepseek (which cascades the model selection),
then call `select_platform_widget` again.  The second call resets
`selected_platform` to the first available provider but leaves
`selected_model` untouched. -/
def staleTrace : List Event :=
  [ .selectPlatform envBoth, .selectModel,
    .platformChange "Deepseek", .selectPlatform envBoth ]

/-- The state `staleTrace` ends in: platform OpenAI, model deepseek-chat. -/
def staleState : MState :=
  { platform_dropdown := some { options := ["OpenAI", "Deepseek"], value := "OpenAI" },
    model_dropdown := some { options := ["deepseek-chat", "deepseek-coder"], value := "deepseek-chat" },
    selected_platform := some "OpenAI",
    selected_model := some "deepseek-chat",
    platform_message := none,
    model_message := none }

end ModelSelectUtil

namespace ModelSelectUtil

/-! ### Characterization of the availability computation on the fixed table -/

theorem availablePlatforms_model_configs (env : Env) :
    availablePlatforms env model_configs = some (availListC env) := by
  cases h1 : check_api_key_exists env "openai" <;>
    cases h2 : check_api_key_exists env "deepseek" <;>
      cases h3 : check_api_key_exists env "gemini" <;>
        cases h4 : check_api_key_exists env "anthropic" <;>
          simp [availablePlatforms, model_configs, availListC, h1, h2, h3, h4]

theorem mem_providerNames_iff (p : String) :
    p ∈ providerNames ↔
      p = "OpenAI" ∨ p = "Deepseek" ∨ p = "Gemini" ∨ p = "Anthropic" := by
  simp [providerNames, model_configs]

theorem availListC_subset (env : Env) :
    ∀ x ∈ availListC env, x ∈ providerNames := by
  intro x hx
  rw [mem_providerNames_iff]
  unfold availListC at hx
  split_ifs at hx <;> simp_all <;> tauto

theorem modelOptions_ne_nil (p : String) (hp : p ∈ providerNames) :
    modelOptions model_configs p ≠ [] := by
  rw [mem_providerNames_iff] at hp
  rcases hp with h | h | h | h <;> subst h <;> decide

theorem providerNames_ne_empty (p : String) (hp : p ∈ providerNames) :
    p ≠ "" := by
  rw [mem_providerNames_iff] at hp
  rcases hp with h | h | h | h <;> subst h <;> decide

/-! ### Reduction lemmas for the per-method functions -/

theorem select_platform_widget_eq (env : Env) (s : MState) :
    select_platform_widget env model_configs s =
      some (match availListC env with
        | [] => { s with platform_message := some noKeysMessage }
        | a :: rest =>
          { s with
            platform_dropdown := some { options := a :: rest, value := a },
            selected_platform := some a,
            platform_message := none }) := by
  unfold select_platform_widget
  rw [availablePlatforms_model_configs]
  cases availListC env with
  | nil => rfl
  | cons a rest => rfl

theorem select_model_widget_none {mc : MC} {s : MState}
    (h : s.selected_platform = none) : select_model_widget mc s = s := by
  unfold select_model_widget
  rw [h]

theorem select_model_widget_some {mc : MC} {s : MState} {p : String}
    (h : s.selected_platform = some p) :
    select_model_widget mc s =
      if p = "" then s
      else
        match modelOptions mc p with
        | [] => { s with model_message := some (noModelsMessage p) }
        | m :: rest =>
          { s with
            model_dropdown := some { options := m :: rest, value := m },
            selected_model := some m,
            model_message := none } := by
  unfold select_model_widget
  rw [h]

theorem step_platformChange_none {s : MState} {v : String}
    (h : s.platform_dropdown = none) :
    step model_configs s (.platformChange v) = some s := by
  simp only [step]
  rw [h]

theorem step_platformChange_some {s : MState} {dd : Dropdown} {v : String}
    (h : s.platform_dropdown = some dd) :
    step model_configs s (.platformChange v) =
      if v ∈ dd.options ∧ v ≠ dd.value then
        some (select_model_widget model_configs
          { s with
            platform_dropdown := some { dd with value := v },
            selected_platform := some v })
      else some s := by
  simp only [step]
  rw [h]

theorem step_modelChange_none {s : MState} {v : String}
    (h : s.model_dropdown = none) :
    step model_configs s (.modelChange v) = some s := by
  simp only [step]
  rw [h]

theorem step_modelChange_some {s : MState} {dd : Dropdown} {v : String}
    (h : s.model_dropdown = some dd) :
    step model_configs s (.modelChange v) =
      if v ∈ dd.options ∧ v ≠ dd.value then
        some { s with
          model_dropdown := some { dd with value := v },
          selected_model := some v }
      else some s := by
  simp only [step]
  rw [h]

/-! ### The reachability invariant behind claim C1 -/

theorem pre_initState : Pre initState :=
  ⟨rfl, rfl, rfl, rfl⟩

theorem inv_of_pre {s : MState} (h : Pre s) : Inv s := by
  obtain ⟨h1, h2, h3, h4⟩ := h
  refine ⟨?_, ?_, ?_, ?_⟩
  · intro p hp; rw [h3] at hp; cases hp
  · intro dd hdd; rw [h1] at hdd; cases hdd
  · intro dd hdd; rw [h2] at hdd; cases hdd
  · intro p m hp; rw [h3] at hp; cases hp

theorem select_model_widget_inv {s : MState} {p : String}
    (hp : s.selected_platform = some p) (hmem : p ∈ providerNames)
    (hpdd : ∀ dd, s.platform_dropdown = some dd → ∀ x ∈ dd.options, x ∈ providerNames) :
    Inv (select_model_widget model_configs s) := by
  have hne : p ≠ "" := providerNames_ne_empty p hmem
  have hopts := modelOptions_ne_nil p hmem
  rw [select_model_widget_some hp, if_neg hne]
  cases hmo : modelOptions model_configs p with
  | nil => exact absurd hmo hopts
  | cons m rest =>
    refine ⟨?_, ?_, ?_, ?_⟩
    · intro q hq
      simp only at hq
      rw [hp] at hq
      cases hq
      exact hmem
    · intro dd hdd
      exact hpdd dd hdd
    · intro dd hdd
      simp only [Option.some.injEq] at hdd
      subst hdd
      exact ⟨p, hp, hmo.symm⟩
    · intro q m' hq hm'
      simp only at hq hm'
      rw [hp] at hq
      cases hq
      cases hm'
      rw [hmo]
      exact List.mem_cons_self m rest

theorem step_selectModel_inv {s : MState} (h : Inv s) :
    Inv (select_model_widget model_configs s) := by
  cases hp : s.selected_platform with
  | none => rw [select_model_widget_none hp]; exact h
  | some p => exact select_model_widget_inv hp (h.1 p hp) h.2.1

theorem step_platformChange_inv {s s' : MState} {v : String} (h : Inv s)
    (hs : step model_configs s (.platformChange v) = some s') : Inv s' := by
  cases hdd : s.platform_dropdown with
  | none =>
    rw [step_platformChange_none hdd] at hs
    cases hs
    exact h
  | some dd =>
    rw [step_platformChange_some hdd] at hs
    by_cases hc : v ∈ dd.options ∧ v ≠ dd.value
    · rw [if_pos hc] at hs
      cases hs
      have hv : v ∈ providerNames := h.2.1 dd hdd v hc.1
      refine select_model_widget_inv rfl hv ?_
      intro dd' hdd'
      simp only [Option.some.injEq] at hdd'
      subst hdd'
      exact fun x hx => h.2.1 dd hdd x hx
    · rw [if_neg hc] at hs
      cases hs
      exact h

theorem step_modelChange_inv {s s' : MState} {v : String} (h : Inv s)
    (hs : step model_configs s (.modelChange v) = some s') : Inv s' := by
  cases hdd : s.model_dropdown with
  | none =>
    rw [step_modelChange_none hdd] at hs
    cases hs
    exact h
  | some dd =>
    rw [step_modelChange_some hdd] at hs
    by_cases hc : v ∈ dd.options ∧ v ≠ dd.value
    · rw [if_pos hc] at hs
      cases hs
      obtain ⟨p, hp, hpopts⟩ := h.2.2.1 dd hdd
      refine ⟨fun q hq => h.1 q hq, fun dd' hdd' => h.2.1 dd' hdd', ?_, ?_⟩
      · intro dd' hdd'
        simp only [Option.some.injEq] at hdd'
        subst hdd'
        exact ⟨p, hp, hpopts⟩
      · intro q m' hq hm'
        simp only at hq hm'
        rw [hp] at hq
        cases hq
        cases hm'
        rw [← hpopts]
        exact hc.1
    · rw [if_neg hc] at hs
      cases hs
      exact h

theorem select_platform_widget_inv_of_pre {env : Env} {s s' : MState}
    (h : Pre s) (hs : select_platform_widget env model_configs s = some s') :
    Inv s' := by
  obtain ⟨h1, h2, h3, h4⟩ := h
  rw [select_platform_widget_eq] at hs
  cases hs
  cases hl : availListC env with
  | nil =>
    refine ⟨?_, ?_, ?_, ?_⟩
    · intro p hp; simp only at hp; rw [h3] at hp; cases hp
    · intro dd hdd; simp only at hdd; rw [h1] at hdd; cases hdd
    · intro dd hdd; simp only at hdd; rw [h2] at hdd; cases hdd
    · intro p m hp hm; simp only at hm; rw [h4] at hm; cases hm
  | cons a rest =>
    have hsub : ∀ x ∈ a :: rest, x ∈ providerNames := by
      rw [← hl]; exact availListC_subset env
    refine ⟨?_, ?_, ?_, ?_⟩
    · intro p hp
      simp only [Option.some.injEq] at hp
      subst hp
      exact hsub a (List.mem_cons_self a rest)
    · intro dd hdd
      simp only [Option.some.injEq] at hdd
      subst hdd
      exact hsub
    · intro dd hdd; simp only at hdd; rw [h2] at hdd; cases hdd
    · intro p m hp hm; simp only at hm; rw [h4] at hm; cases hm

theorem pre_step_noop {s : MState} {e : Event} (h : Pre s)
    (he : isSelectPlatform e = false) : step model_configs s e = some s := by
  obtain ⟨h1, h2, h3, h4⟩ := h
  cases e with
  | selectPlatform env => simp [isSelectPlatform] at he
  | selectModel =>
    simp only [step]
    rw [select_model_widget_none h3]
  | platformChange v => exact step_platformChange_none h1
  | modelChange v => exact step_modelChange_none h2

theorem run_inv_no_selectPlatform {es : List Event} :
    ∀ {s s' : MState}, (∀ e ∈ es, isSelectPlatform e = false) → Inv s →
      run model_configs s es = some s' → Inv s' := by
  induction es with
  | nil =>
    intro s s' _ h hr
    unfold run at hr
    cases hr
    exact h
  | cons e es ih =>
    intro s s' hno h hr
    unfold run at hr
    have hne : isSelectPlatform e = false := hno e (List.mem_cons_self e es)
    have hrest : ∀ e' ∈ es, isSelectPlatform e' = false :=
      fun e' he' => hno e' (List.mem_cons_of_mem e he')
    cases e with
    | selectPlatform env => simp [isSelectPlatform] at hne
    | selectModel =>
      simp only [step] at hr
      exact ih hrest (step_selectModel_inv h) hr
    | platformChange v =>
      cases hstep : step model_configs s (.platformChange v) with
      | none => rw [hstep] at hr; cases hr
      | some s1 =>
        rw [hstep] at hr
        exact ih hrest (step_platformChange_inv h hstep) hr
    | modelChange v =>
      cases hstep : step model_configs s (.modelChange v) with
      | none => rw [hstep] at hr; cases hr
      | some s1 =>
        rw [hstep] at hr
        exact ih hrest (step_modelChange_inv h hstep) hr

theorem run_inv_of_pre {es : List Event} :
    ∀ {s s' : MState}, Pre s → es.countP isSelectPlatform ≤ 1 →
      run model_configs s es = some s' → Inv s' := by
  induction es with
  | nil =>
    intro s s' hpre _ hr
    unfold run at hr
    cases hr
    exact inv_of_pre hpre
  | cons e es ih =>
    intro s s' hpre hcount hr
    unfold run at hr
    rw [List.countP_cons] at hcount
    cases he : isSelectPlatform e with
    | false =>
      rw [pre_step_noop hpre he] at hr
      refine ih hpre ?_ hr
      rw [he] at hcount
      simpa using hcount
    | true =>
      have hzero : es.countP isSelectPlatform = 0 := by
        rw [he] at hcount
        simp only [eq_self_iff_true, if_true] at hcount
        omega
      have hno : ∀ e' ∈ es, isSelectPlatform e' = false := by
        intro e' he'
        have := List.countP_eq_zero.mp hzero e' he'
        simpa using this
      cases e with
      | selectPlatform env =>
        cases hstep : select_platform_widget env model_configs s with
        | none =>
          rw [select_platform_widget_eq] at hstep
          exact Option.noConfusion hstep
        | some s1 =>
          simp only [step, hstep] at hr
          exact run_inv_no_selectPlatform hno
            (select_platform_widget_inv_of_pre hpre hstep) hr
      | selectModel => simp [isSelectPlatform] at he
      | platformChange v => simp [isSelectPlatform] at he
      | modelChange v => simp [isSelectPlatform] at he

/-! ### Lookup characterizations on the fixed tables -/

theorem check_api_key_exists_openai (env : Env) :
    check_api_key_exists env "openai" = optTruthy (getenv env "OPENAI_API_KEY") := by
  simp [check_api_key_exists, api_key_map, lookupVal]

theorem check_api_key_exists_deepseek (env : Env) :
    check_api_key_exists env "deepseek" = optTruthy (getenv env "DEEPSEEK_API_KEY") := by
  simp [check_api_key_exists, api_key_map, lookupVal]

theorem check_api_key_exists_gemini (env : Env) :
    check_api_key_exists env "gemini" = optTruthy (getenv env "GEMINI_API_KEY") := by
  simp [check_api_key_exists, api_key_map, lookupVal]

theorem check_api_key_exists_anthropic (env : Env) :
    check_api_key_exists env "anthropic" = optTruthy (getenv env "ANTHROPIC_API_KEY") := by
  simp [check_api_key_exists, api_key_map, lookupVal]

theorem mem_availListC (env : Env) :
    ("OpenAI" ∈ availListC env ↔ check_api_key_exists env "openai" = true) ∧
    ("Deepseek" ∈ availListC env ↔ check_api_key_exists env "deepseek" = true) ∧
    ("Gemini" ∈ availListC env ↔ check_api_key_exists env "gemini" = true) ∧
    ("Anthropic" ∈ availListC env ↔ check_api_key_exists env "anthropic" = true) := by
  cases h1 : check_api_key_exists env "openai" <;>
    cases h2 : check_api_key_exists env "deepseek" <;>
      cases h3 : check_api_key_exists env "gemini" <;>
        cases h4 : check_api_key_exists env "anthropic" <;>
          simp [availListC, h1, h2, h3, h4]

theorem lookupVal_api_key_map (k : String) :
    lookupVal api_key_map k =
      if "openai" = k then some "OPENAI_API_KEY"
      else if "deepseek" = k then some "DEEPSEEK_API_KEY"
      else if "gemini" = k then some "GEMINI_API_KEY"
      else if "anthropic" = k then some "ANTHROPIC_API_KEY"
      else none := by
  simp [lookupVal, api_key_map]

theorem lookupVal_model_configs (p : String) :
    lookupVal model_configs p =
      if "OpenAI" = p then
        some [("gpt-4o", "openai"), ("gpt-3.5-turbo", "openai"), ("gpt-5-nano", "openai")]
      else if "Deepseek" = p then
        some [("deepseek-chat", "deepseek"), ("deepseek-coder", "deepseek")]
      else if "Gemini" = p then
        some [("gemini-pro", "gemini"), ("gemini-flash", "gemini")]
      else if "Anthropic" = p then
        some [("claude-3-sonnet-20240229", "anthropic"), ("claude-2.1", "anthropic")]
      else none := by
  simp [lookupVal, model_configs]

/-! ### Reduction lemmas for `get_model_params` -/

theorem get_model_params_eq {s : MState} {p m : String}
    (hp : s.selected_platform = some p) (hm : s.selected_model = some m) :
    get_model_params model_configs s =
      if p = "" ∨ m = "" then none
      else findParams ((lookupVal model_configs p).getD []) m := by
  unfold get_model_params
  rw [hp, hm]

theorem get_model_params_none_left {s : MState}
    (hp : s.selected_platform = none) :
    get_model_params model_configs s = none := by
  unfold get_model_params
  rw [hp]

theorem get_model_params_none_right {s : MState}
    (hm : s.selected_model = none) :
    get_model_params model_configs s = none := by
  unfold get_model_params
  rw [hm]
  cases s.selected_platform <;> rfl

theorem findParams_eq_none {l : List (String × String)} {m : String}
    (h : m ∉ l.map (fun c => c.1)) : findParams l m = none := by
  induction l with
  | nil => rfl
  | cons c rest ih =>
    simp only [List.map_cons, List.mem_cons, not_or] at h
    simp only [findParams]
    rw [if_neg (fun hc => h.1 hc.symm)]
    exact ih h.2

/-! ### Claim C1 -/

/-- C1 counterexample: the invariant "selected model belongs to the selected
provider's list" does NOT hold in every reachable state.  After the event
sequence `staleTrace` (which calls `select_platform_widget` twice), the
reached state has `selected_platform = OpenAI` and
`selected_model = deepseek-chat`, which is not an OpenAI model, so
`selectionConsistent` fails there: the second call resets the platform to the
first available provider without repopulating the model selection. -/
theorem c1_counterexample :
    run model_configs initState staleTrace = some staleState ∧
    ¬ selectionConsistent staleState := by
  constructor
  · decide
  · intro h
    exact absurd (h "OpenAI" "deepseek-chat" rfl rfl) (by decide)

/-- C1 (amended): in every state reached by a sequence of
`select_platform_widget`, `select_model_widget`, platform-change and
model-change events that contains at most one `select_platform_widget` call,
if `selected_platform` and `selected_model` are both set then
`selected_model` is the name of a model listed for `selected_platform` in
`model_configs`; the cascading repopulation on platform change maintains this
without any explicit check. -/
theorem c1_selection_invariant (es : List Event) (s : MState)
    (hcount : es.countP isSelectPlatform ≤ 1)
    (hrun : run model_configs initState es = some s) :
    selectionConsistent s :=
  (run_inv_of_pre pre_initState hcount hrun).2.2.2

theorem c1_selection_invariant_witness :
    selectionConsistent
      { platform_dropdown := some { options := ["OpenAI"], value := "OpenAI" },
        model_dropdown := some
          { options := ["gpt-4o", "gpt-3.5-turbo", "gpt-5-nano"], value := "gpt-4o" },
        selected_platform := some "OpenAI",
        selected_model := some "gpt-4o",
        platform_message := none,
        model_message := none } :=
  c1_selection_invariant
    [.selectPlatform [("OPENAI_API_KEY", "sk-test")], .selectModel] _
    (by decide) (by decide)

/-! ### Claim C2 -/

/-- C2: for every provider of `model_configs`, `select_platform_widget`
includes the provider's name in the available list exactly when the
environment variable mapped from its provider key (via `api_key_map`) is set
and non-empty in the environment at call time. -/
theorem c2_available_iff_env_key (env : Env) (l : List String)
    (h : availablePlatforms env model_configs = some l) :
    (("OpenAI" ∈ l) ↔ optTruthy (getenv env "OPENAI_API_KEY") = true) ∧
    (("Deepseek" ∈ l) ↔ optTruthy (getenv env "DEEPSEEK_API_KEY") = true) ∧
    (("Gemini" ∈ l) ↔ optTruthy (getenv env "GEMINI_API_KEY") = true) ∧
    (("Anthropic" ∈ l) ↔ optTruthy (getenv env "ANTHROPIC_API_KEY") = true) := by
  rw [availablePlatforms_model_configs, Option.some.injEq] at h
  subst h
  obtain ⟨m1, m2, m3, m4⟩ := mem_availListC env
  rw [m1, m2, m3, m4]
  rw [check_api_key_exists_openai, check_api_key_exists_deepseek,
    check_api_key_exists_gemini, check_api_key_exists_anthropic]
  exact ⟨Iff.rfl, Iff.rfl, Iff.rfl, Iff.rfl⟩

theorem c2_available_iff_env_key_witness :
    (("OpenAI" ∈ ["OpenAI"]) ↔
      optTruthy (getenv [("OPENAI_API_KEY", "sk-w")] "OPENAI_API_KEY") = true) ∧
    (("Deepseek" ∈ ["OpenAI"]) ↔
      optTruthy (getenv [("OPENAI_API_KEY", "sk-w")] "DEEPSEEK_API_KEY") = true) ∧
    (("Gemini" ∈ ["OpenAI"]) ↔
      optTruthy (getenv [("OPENAI_API_KEY", "sk-w")] "GEMINI_API_KEY") = true) ∧
    (("Anthropic" ∈ ["OpenAI"]) ↔
      optTruthy (getenv [("OPENAI_API_KEY", "sk-w")] "ANTHROPIC_API_KEY") = true) :=
  c2_available_iff_env_key [("OPENAI_API_KEY", "sk-w")] ["OpenAI"] (by decide)

/-! ### Claim C3 -/

/-- C3 counterexample: `get_model_params` does NOT return `None` exactly when
a selection is unset.  In the reachable state `staleState` both
`selected_platform` and `selected_model` are set, yet `get_model_params`
returns `None`, because the pair is mismatched. -/
theorem c3_counterexample :
    run model_configs initState staleTrace = some staleState ∧
    staleState.selected_platform = some "OpenAI" ∧
    staleState.selected_model = some "deepseek-chat" ∧
    get_model_params model_configs staleState = none := by
  decide

/-- C3 (amended): `get_model_params` returns `None` whenever
`selected_platform` or `selected_model` is unset, and returns the string
`"<provider_key>:<model_name>"` whenever both are set and the selected model
is paired with `provider_key` in `model_configs` for the selected platform
(when the pair is not listed there it returns `None`, as claim C8 records
separately). -/
theorem c3_model_params_format :
    (∀ s : MState, s.selected_platform = none ∨ s.selected_model = none →
      get_model_params model_configs s = none) ∧
    (∀ (s : MState) (p m k : String), s.selected_platform = some p →
      s.selected_model = some m → (m, k) ∈ (lookupVal model_configs p).getD [] →
      get_model_params model_configs s = some (k ++ ":" ++ m)) := by
  constructor
  · intro s h
    rcases h with h | h
    · exact get_model_params_none_left h
    · exact get_model_params_none_right h
  · intro s p m k hp hm hmem
    rw [lookupVal_model_configs] at hmem
    split_ifs at hmem with h1 h2 h3 h4 <;>
      [subst h1; subst h2; subst h3; subst h4; skip]
    · simp only [Option.getD_some, List.mem_cons, List.not_mem_nil, or_false,
        Prod.mk.injEq] at hmem
      rcases hmem with ⟨rfl, rfl⟩ | ⟨rfl, rfl⟩ | ⟨rfl, rfl⟩ <;>
        rw [get_model_params_eq hp hm] <;> decide
    · simp only [Option.getD_some, List.mem_cons, List.not_mem_nil, or_false,
        Prod.mk.injEq] at hmem
      rcases hmem with ⟨rfl, rfl⟩ | ⟨rfl, rfl⟩ <;>
        rw [get_model_params_eq hp hm] <;> decide
    · simp only [Option.getD_some, List.mem_cons, List.not_mem_nil, or_false,
        Prod.mk.injEq] at hmem
      rcases hmem with ⟨rfl, rfl⟩ | ⟨rfl, rfl⟩ <;>
        rw [get_model_params_eq hp hm] <;> decide
    · simp only [Option.getD_some, List.mem_cons, List.not_mem_nil, or_false,
        Prod.mk.injEq] at hmem
      rcases hmem with ⟨rfl, rfl⟩ | ⟨rfl, rfl⟩ <;>
        rw [get_model_params_eq hp hm] <;> decide
    · simp at hmem

theorem c3_model_params_format_witness :
    get_model_params model_configs initState = none ∧
    get_model_params model_configs
      { platform_dropdown := none, model_dropdown := none,
        selected_platform := some "Gemini", selected_model := some "gemini-flash",
        platform_message := none, model_message := none } =
      some ("gemini" ++ ":" ++ "gemini-flash") :=
  ⟨c3_model_params_format.1 initState (Or.inl rfl),
   c3_model_params_format.2 _ "Gemini" "gemini-flash" "gemini" rfl rfl (by decide)⟩

/-! ### Claim C4 -/

theorem display_widgets_eq (env : Env) (s : MState) :
    display_widgets env s =
      some (select_model_widget model_configs
        (match availListC env with
          | [] => { s with platform_message := some noKeysMessage }
          | a :: rest =>
            { s with
              platform_dropdown := some { options := a :: rest, value := a },
              selected_platform := some a,
              platform_message := none })) := by
  unfold display_widgets
  rw [select_platform_widget_eq]

theorem display_widgets_cases (env : Env) :
    (availListC env = [] ∧
      display_widgets env initState =
        some { initState with platform_message := some noKeysMessage }) ∨
    (∃ a rest, availListC env = a :: rest ∧ a ∈ providerNames ∧
      ∃ m mrest, modelOptions model_configs a = m :: mrest ∧
        display_widgets env initState = some
          { platform_dropdown := some { options := a :: rest, value := a },
            model_dropdown := some { options := m :: mrest, value := m },
            selected_platform := some a, selected_model := some m,
            platform_message := none, model_message := none }) := by
  cases hl : availListC env with
  | nil =>
    left
    refine ⟨rfl, ?_⟩
    rw [display_widgets_eq, hl]
    rfl
  | cons a rest =>
    right
    have ha : a ∈ providerNames :=
      availListC_subset env a (by rw [hl]; exact List.mem_cons_self a rest)
    cases hmo : modelOptions model_configs a with
    | nil => exact absurd hmo (modelOptions_ne_nil a ha)
    | cons m mrest =>
      refine ⟨a, rest, rfl, ha, m, mrest, hmo, ?_⟩
      rw [display_widgets_eq, hl]
      rw [select_model_widget_some (p := a) rfl,
        if_neg (providerNames_ne_empty a ha), hmo]

/-- C4: every provider selection initializes the model selection to the first
model name of that provider's `model_configs` list: both the initial default
selection made by `display_widgets` (which runs `select_platform_widget` and
then `select_model_widget`) and every platform-change event that fires
`on_platform_change`. -/
theorem c4_first_model_selected :
    (∀ (env : Env) (s' : MState) (p : String),
      display_widgets env initState = some s' →
      s'.selected_platform = some p →
      s'.selected_model = (modelOptions model_configs p).head?) ∧
    (∀ (s s' : MState) (dd : Dropdown) (v : String),
      s.platform_dropdown = some dd → v ∈ dd.options → v ≠ dd.value →
      v ∈ providerNames →
      step model_configs s (.platformChange v) = some s' →
      s'.selected_platform = some v ∧
      s'.selected_model = (modelOptions model_configs v).head?) := by
  constructor
  · intro env s' p hd hp
    rcases display_widgets_cases env with ⟨hl, hd2⟩ |
        ⟨a, rest, hl, ha, m, mrest, hmo, hd2⟩
    · rw [hd2] at hd
      injection hd with hd
      subst hd
      simp [initState] at hp
    · rw [hd2] at hd
      injection hd with hd
      subst hd
      simp only [Option.some.injEq] at hp
      subst hp
      rw [hmo]
      rfl
  · intro s s' dd v hdd hvin hvne hvp hstep
    rw [step_platformChange_some hdd, if_pos ⟨hvin, hvne⟩] at hstep
    injection hstep with hstep
    subst hstep
    rw [select_model_widget_some (p := v) rfl,
      if_neg (providerNames_ne_empty v hvp)]
    cases hmo : modelOptions model_configs v with
    | nil => exact absurd hmo (modelOptions_ne_nil v hvp)
    | cons m mrest => exact ⟨rfl, rfl⟩

theorem c4_first_model_selected_witness :
    (({ platform_dropdown := some { options := ["Anthropic"], value := "Anthropic" },
        model_dropdown := some
          { options := ["claude-3-sonnet-20240229", "claude-2.1"],
            value := "claude-3-sonnet-20240229" },
        selected_platform := some "Anthropic",
        selected_model := some "claude-3-sonnet-20240229",
        platform_message := none, model_message := none } : MState).selected_model =
      (modelOptions model_configs "Anthropic").head?) :=
  c4_first_model_selected.1 [("ANTHROPIC_API_KEY", "sk-a")] _ "Anthropic"
    (by decide) (by decide)

/-! ### Claim C5 -/

/-- C5: the two degenerate conditions end in an informational message and a
normal return, never an exception: `select_platform_widget` always returns
(first conjunct: no `IndexError` is reachable on the fixed table, for any
environment and state); when no provider has a usable key it only sets the
no-keys message (second conjunct); and when the selected provider has no
configured models, `select_model_widget` only sets the no-models message
(third conjunct).  `select_model_widget` is total by construction. -/
theorem c5_degenerate_handling :
    (∀ (env : Env) (s : MState),
      ∃ s', select_platform_widget env model_configs s = some s') ∧
    (∀ (env : Env) (s : MState),
      availablePlatforms env model_configs = some [] →
      select_platform_widget env model_configs s =
        some { s with platform_message := some noKeysMessage }) ∧
    (∀ (s : MState) (p : String), s.selected_platform = some p → p ≠ "" →
      modelOptions model_configs p = [] →
      select_model_widget model_configs s =
        { s with model_message := some (noModelsMessage p) }) := by
  refine ⟨?_, ?_, ?_⟩
  · intro env s
    exact ⟨_, select_platform_widget_eq env s⟩
  · intro env s h
    rw [availablePlatforms_model_configs, Option.some.injEq] at h
    rw [select_platform_widget_eq, h]
  · intro s p hp hne hmo
    rw [select_model_widget_some hp, if_neg hne, hmo]

theorem c5_degenerate_handling_witness :
    (∃ s', select_platform_widget [] model_configs initState = some s') ∧
    select_platform_widget [] model_configs initState =
      some { initState with platform_message := some noKeysMessage } ∧
    select_model_widget model_configs
      { platform_dropdown := none, model_dropdown := none,
        selected_platform := some "Mistral", selected_model := none,
        platform_message := none, model_message := none } =
      { platform_dropdown := none, model_dropdown := none,
        selected_platform := some "Mistral", selected_model := none,
        platform_message := none,
        model_message := some (noModelsMessage "Mistral") } :=
  ⟨c5_degenerate_handling.1 [] initState,
   c5_degenerate_handling.2.1 [] initState (by decide),
   c5_degenerate_handling.2.2 _ "Mistral" rfl (by decide) (by decide)⟩

/-! ### Claim C6 -/

/-- C6: whenever the filtered available-provider list is non-empty,
`select_platform_widget` sets the platform dropdown to that list with the
first entry as its value, and records the first entry as
`selected_platform`. -/
theorem c6_default_first_available (env : Env) (s : MState) (a : String)
    (rest : List String)
    (h : availablePlatforms env model_configs = some (a :: rest)) :
    select_platform_widget env model_configs s =
      some { s with
        platform_dropdown := some { options := a :: rest, value := a },
        selected_platform := some a,
        platform_message := none } := by
  rw [availablePlatforms_model_configs, Option.some.injEq] at h
  rw [select_platform_widget_eq, h]

theorem c6_default_first_available_witness :
    select_platform_widget [("DEEPSEEK_API_KEY", "sk-d")] model_configs initState =
      some
        { platform_dropdown := some { options := ["Deepseek"], value := "Deepseek" },
          model_dropdown := none,
          selected_platform := some "Deepseek",
          selected_model := none,
          platform_message := none, model_message := none } :=
  c6_default_first_available [("DEEPSEEK_API_KEY", "sk-d")] initState
    "Deepseek" [] (by decide)

/-! ### Claim C7 -/

/-- C7: `_check_api_key_exists` recomputes key presence from the environment
on every call and caches nothing: its result depends only on the current
value of the mapped environment variable (first conjunct: two calls under
identical contents of that variable agree), it is `true` exactly when that
variable is set and non-empty (second conjunct), and two calls under
different environment contents can differ (third conjunct). -/
theorem c7_key_check_reads_env :
    (∀ (env1 env2 : Env) (k v : String),
      lookupVal api_key_map k = some v →
      getenv env1 v = getenv env2 v →
      check_api_key_exists env1 k = check_api_key_exists env2 k) ∧
    (∀ (env : Env) (k v : String),
      lookupVal api_key_map k = some v →
      (check_api_key_exists env k = true ↔ optTruthy (getenv env v) = true)) ∧
    (check_api_key_exists [("OPENAI_API_KEY", "sk-1")] "openai" ≠
      check_api_key_exists [] "openai") := by
  refine ⟨?_, ?_, ?_⟩
  · intro env1 env2 k v hlk hg
    simp only [check_api_key_exists, hlk, hg]
  · intro env k v hlk
    have hv : v ≠ "" := by
      rw [lookupVal_api_key_map] at hlk
      split_ifs at hlk <;> injection hlk with hlk <;> subst hlk <;> decide
    simp only [check_api_key_exists, hlk, if_pos hv]
  · decide

theorem c7_key_check_reads_env_witness :
    check_api_key_exists [("OPENAI_API_KEY", "sk-1")] "openai" =
      check_api_key_exists [("Z", "1"), ("OPENAI_API_KEY", "sk-1")] "openai" ∧
    (check_api_key_exists [] "gemini" = true ↔
      optTruthy (getenv [] "GEMINI_API_KEY") = true) :=
  ⟨c7_key_check_reads_env.1 [("OPENAI_API_KEY", "sk-1")]
      [("Z", "1"), ("OPENAI_API_KEY", "sk-1")] "openai" "OPENAI_API_KEY"
      (by decide) (by decide),
   c7_key_check_reads_env.2.1 [] "gemini" "GEMINI_API_KEY" (by decide)⟩

/-! ### Claim C8 -/

/-- C8: when `selected_platform` and `selected_model` are both set but the
model does not appear among the model names listed for the platform in
`model_configs`, `get_model_params` returns `None` rather than a formatted
string built from the stale pair. -/
theorem c8_mismatch_returns_none (s : MState) (p m : String)
    (hp : s.selected_platform = some p) (hm : s.selected_model = some m)
    (hnot : m ∉ modelOptions model_configs p) :
    get_model_params model_configs s = none := by
  rw [get_model_params_eq hp hm]
  by_cases he : p = "" ∨ m = ""
  · rw [if_pos he]
  · rw [if_neg he]
    exact findParams_eq_none hnot

theorem c8_mismatch_returns_none_witness :
    get_model_params model_configs
      { platform_dropdown := none, model_dropdown := none,
        selected_platform := some "OpenAI", selected_model := some "deepseek-chat",
        platform_message := none, model_message := none } = none :=
  c8_mismatch_returns_none _ "OpenAI" "deepseek-chat" rfl rfl (by decide)

/-! ### Claim C9 -/

/-- C9: when `selected_platform` is unset, or the selected platform has no
configured models in `model_configs`, `select_model_widget` returns without
modifying `selected_model` or `model_dropdown`, leaving any earlier model
selection in place. -/
theorem c9_no_models_frame (s : MState)
    (h : s.selected_platform = none ∨
      ∃ p, s.selected_platform = some p ∧ modelOptions model_configs p = []) :
    (select_model_widget model_configs s).selected_model = s.selected_model ∧
    (select_model_widget model_configs s).model_dropdown = s.model_dropdown := by
  rcases h with h | ⟨p, hp, hmo⟩
  · rw [select_model_widget_none h]
    exact ⟨rfl, rfl⟩
  · by_cases hne : p = ""
    · rw [select_model_widget_some hp, if_pos hne]
      exact ⟨rfl, rfl⟩
    · rw [select_model_widget_some hp, if_neg hne, hmo]
      exact ⟨rfl, rfl⟩

theorem c9_no_models_frame_witness :
    (select_model_widget model_configs
        { platform_dropdown := none,
          model_dropdown := some { options := ["gpt-4o"], value := "gpt-4o" },
          selected_platform := some "Qwen", selected_model := some "gpt-4o",
          platform_message := none, model_message := none }).selected_model =
      some "gpt-4o" ∧
    (select_model_widget model_configs
        { platform_dropdown := none,
          model_dropdown := some { options := ["gpt-4o"], value := "gpt-4o" },
          selected_platform := some "Qwen", selected_model := some "gpt-4o",
          platform_message := none, model_message := none }).model_dropdown =
      some { options := ["gpt-4o"], value := "gpt-4o" } :=
  c9_no_models_frame _ (Or.inr ⟨"Qwen", rfl, by decide⟩)

/-! ### Claim C10 -/

/-- C10: availability of a provider in `select_platform_widget` is decided
solely by the provider key paired with the first model of its `model_configs`
list.  First conjunct: replacing every model tuple after the first changes
nothing about the availability computation, so the remaining keys are never
consulted.  Second conjunct: on the fixed table, a provider's name is in the
computed available list exactly when `_check_api_key_exists` passes on the
key of its first model tuple. -/
theorem c10_first_key_decides :
    (∀ (env : Env) (name : String) (c : String × String)
        (t1 t2 : List (String × String)) (rest : MC),
      availablePlatforms env ((name, c :: t1) :: rest) =
        availablePlatforms env ((name, c :: t2) :: rest)) ∧
    (∀ (env : Env) (l : List String) (name : String)
        (configs : List (String × String)) (c : String × String)
        (t : List (String × String)),
      availablePlatforms env model_configs = some l →
      (name, configs) ∈ model_configs → configs = c :: t →
      (name ∈ l ↔ check_api_key_exists env c.2 = true)) := by
  constructor
  · intro env name c t1 t2 rest
    rfl
  · intro env l name configs c t h hmem hcfg
    rw [availablePlatforms_model_configs, Option.some.injEq] at h
    subst h
    subst hcfg
    obtain ⟨m1, m2, m3, m4⟩ := mem_availListC env
    simp only [model_configs, List.mem_cons, List.not_mem_nil, or_false,
      Prod.mk.injEq] at hmem
    rcases hmem with ⟨rfl, hc⟩ | ⟨rfl, hc⟩ | ⟨rfl, hc⟩ | ⟨rfl, hc⟩ <;>
      injection hc with hc1 hc2 <;> subst hc1
    · exact m1
    · exact m2
    · exact m3
    · exact m4

theorem c10_first_key_decides_witness :
    availablePlatforms [] [("X", [("m1", "k1")])] =
      availablePlatforms [] [("X", [("m1", "k1"), ("m2", "k2")])] ∧
    ("Gemini" ∈ ["Gemini"] ↔
      check_api_key_exists [("GEMINI_API_KEY", "sk-g")]
        ("gemini-pro", "gemini").2 = true) :=
  ⟨c10_first_key_decides.1 [] "X" ("m1", "k1") [] [("m2", "k2")] [],
   c10_first_key_decides.2 [("GEMINI_API_KEY", "sk-g")] ["Gemini"] "Gemini"
     [("gemini-pro", "gemini"), ("gemini-flash", "gemini")]
     ("gemini-pro", "gemini") [("gemini-flash", "gemini")]
     (by decide) (by decide) rfl⟩

end ModelSelectUtil
